import Mathlib

/- Verification of the benchmark harness of the Exercism_Benchmarking
repository (src/Leap_Benchmark_II.py and src/Leap_benchmarking.py).

The four leap-year candidate predicates are embedded as functions on `Int`
(Python integers are unbounded; Python's `%` with a positive divisor agrees
with `Int.emod`).  The timing harness of each script is embedded as a pure
function parameterised by an abstract per-call duration function (timing
values are exact rationals `ℚ`); a candidate raising an exception is
modelled with `Except`. -/

/-! ## The four candidate predicates

Source: src/Leap_Benchmark_II.py, lines 25-38.  The set-up strings of
src/Leap_benchmarking.py (lines 25-47) define `leap_year` functions whose
bodies are textually identical to these four functions, so both scripts
share these embeddings. -/

/-- Source: `def leap_if_statements(year): return year % 4 == 0 and
(year % 100 != 0 or year % 400 == 0)` (Leap_Benchmark_II.py line 25;
identical body in the "if-statements" set-up string of
Leap_benchmarking.py). -/
def leap_if_statements (year : Int) : Bool :=
  year % 4 == 0 && (year % 100 != 0 || year % 400 == 0)

/-- Source: `def leap_ternary(year): return not year % 400 if not
year % 100 else not year % 4` (Leap_Benchmark_II.py line 29).  Python's
`not n` on an integer `n` is `n == 0`, so the conditional expression reads:
if `year % 100 == 0` then `year % 400 == 0` else `year % 4 == 0`. -/
def leap_ternary (year : Int) : Bool :=
  if year % 100 == 0 then year % 400 == 0 else year % 4 == 0

/-- CPython's `datetime._is_leap(year)`: `year % 4 == 0 and
(year % 100 != 0 or year % 400 == 0)` (the leap rule used internally by
the `datetime` module for date arithmetic). -/
def datetime_is_leap (year : Int) : Bool :=
  year % 4 == 0 && (year % 100 != 0 || year % 400 == 0)

/-- CPython's `datetime._DAYS_IN_MONTH` table: index 0 is a `-1`
placeholder, index m (1-12) is the length of month m in a non-leap
year. -/
def DAYS_IN_MONTH : List Int :=
  [-1, 31, 28, 31, 30, 31, 30, 31, 31, 30, 31, 30, 31]

/-- CPython's `datetime._days_in_month(year, month)`: 29 for February of a
leap year, otherwise the `_DAYS_IN_MONTH` table entry. -/
def days_in_month (year : Int) (month : Nat) : Int :=
  if month = 2 ∧ datetime_is_leap year then 29 else DAYS_IN_MONTH.getD month 0

/-- Effect of `datetime(year, month, day) + timedelta(days=1)` on the
calendar date: CPython converts the date to an ordinal, adds one, and
converts back, which advances the day and rolls over at month and year
boundaries. -/
def nextDay (year : Int) (month day : Nat) : Int × Nat × Nat :=
  if (day : Int) + 1 ≤ days_in_month year month then (year, month, day + 1)
  else if month + 1 ≤ 12 then (year, month + 1, 1)
  else (year + 1, 1, 1)

/-- Source: `def leap_datetime(year): return (datetime(year, 2, 28) +
timedelta(days=1)).day == 29` (Leap_Benchmark_II.py line 33; identical
body in the "datetime-add" set-up string of Leap_benchmarking.py).  The
`datetime` constructor raises `ValueError` unless
`MINYEAR = 1 <= year <= MAXYEAR = 9999`; a raised exception is modelled
as `none`. -/
def leap_datetime (year : Int) : Option Bool :=
  if 1 ≤ year ∧ year ≤ 9999 then some ((nextDay year 2 28).2.2 == 29)
  else none

/-- CPython's `calendar.isleap(year)`: `year % 4 == 0 and
(year % 100 != 0 or year % 400 == 0)`. -/
def isleap (year : Int) : Bool :=
  year % 4 == 0 && (year % 100 != 0 || year % 400 == 0)

/-- Source: `def leap_calendar(year): return isleap(year)`
(Leap_Benchmark_II.py line 37; identical body in the "calendar-isleap"
set-up string of Leap_benchmarking.py). -/
def leap_calendar (year : Int) : Bool :=
  isleap year

/-- Modelled from the spec: the Gregorian leap rule as worded in the
glossary, "divisible by 4, except centuries not divisible by 400".  This
is the spec-side definition used by the refinement claim C10; it is
deliberately phrased with divisibility, independently of the source
code's `%`-based tests. -/
def gregorianLeap (year : Int) : Prop :=
  4 ∣ year ∧ (100 ∣ year → 400 ∣ year)

instance (year : Int) : Decidable (gregorianLeap year) := by
  unfold gregorianLeap; infer_instance

/-! ## Shared table constants (identical lines 17-18 of both scripts) -/

/-- Source: `row_headers = ["if-statements", "ternary", "datetime-add",
"calendar-isleap"]`. -/
def row_headers : List String :=
  ["if-statements", "ternary", "datetime-add", "calendar-isleap"]

/-- Source: `col_headers = ["1900", "2000", "2019", "2020"]`. -/
def col_headers : List String := ["1900", "2000", "2019", "2020"]

/-- Source: `input_data = [1900, 2000, 2019, 2020]`
(Leap_Benchmark_II.py line 44). -/
def input_data : List Int := [1900, 2000, 2019, 2020]

/-- Source: `functions = [leap_if_statements, leap_ternary, leap_datetime,
leap_calendar]` (Leap_Benchmark_II.py line 43); the three infallible
predicates are wrapped in `some` to share the fallible signature. -/
def functions : List (Int → Option Bool) :=
  [fun y => some (leap_if_statements y), fun y => some (leap_ternary y),
   leap_datetime, fun y => some (leap_calendar y)]

/-- Source: the `setups` dict of Leap_benchmarking.py (lines 23-47).  Each
descriptor maps to a set-up string defining a `leap_year` function whose
body is textually identical to the corresponding function of
Leap_Benchmark_II.py, so each entry is modelled by the embedded predicate
of that name (infallible ones wrapped in `some`). -/
def setups : List (String × (Int → Option Bool)) :=
  [("if-statements", fun y => some (leap_if_statements y)),
   ("ternary", fun y => some (leap_ternary y)),
   ("datetime-add", leap_datetime),
   ("calendar-isleap", fun y => some (leap_calendar y))]

/-! ## Timing model

Wall-clock durations are abstract: every theorem quantifies over a
call-duration function giving the exact duration (a rational number of
seconds) of each individual invocation of a candidate.  `timeit.timeit`
and each element of `timeit.repeat` return the total elapsed time of
`number` consecutive invocations, i.e. the sum of the individual call
durations. -/

/-- timeit's default `number` of executions per timing run (used by
`timeit.repeat` with no arguments in Leap_Benchmark_II.py line 48). -/
def timeitNumber : Nat := 1000000

/-- timeit.repeat's default `repeat` count of 5 timing runs. -/
def timeitRepeatCount : Nat := 5

/-- Source: `loops = 1_000_000` (Leap_benchmarking.py line 15). -/
def loops : Nat := 1000000

/-- Total duration of one timing run of `number` consecutive calls, where
`c k` is the duration of the k-th call. -/
def batchTotal (c : Nat → ℚ) (number : Nat) : ℚ :=
  ((List.range number).map c).sum

/-- `timeit.repeat(stmt, repeat=rep, number=number)`: the list of `rep`
batch totals, where `c r k` is the duration of the k-th call of the r-th
batch. -/
def timeitRepeat (c : Nat → Nat → ℚ) (rep number : Nat) : List ℚ :=
  (List.range rep).map fun r => batchTotal (c r) number

/-- Python's `min` on a list; the harness only ever applies it to the
non-empty list returned by `timeit.repeat`. -/
def listMin : List ℚ → ℚ
  | [] => 0
  | x :: xs => xs.foldl min x

/-- Round-half-to-even to an integer (Python's `round` tie-breaking
rule). -/
def rne (q : ℚ) : Int :=
  if q - ⌊q⌋ < 1/2 then ⌊q⌋
  else if 1/2 < q - ⌊q⌋ then ⌊q⌋ + 1
  else if ⌊q⌋ % 2 = 0 then ⌊q⌋ else ⌊q⌋ + 1

/-- Python's `round(x, 3)` on an exact rational. -/
def pyRound3 (q : ℚ) : ℚ := (rne (q * 1000) : ℚ) / 1000

/-! ## Result table and effect trace -/

/-- Model of `df = pd.DataFrame(np.nan, index=row_headers,
columns=col_headers)` (line 21 of both scripts): an unfilled cell (NaN)
is `none`. -/
structure DataFrame where
  index : List String
  columns : List String
  data : List (List (Option ℚ))

/-- The initial all-NaN frame. -/
def DataFrame.empty (idx cols : List String) : DataFrame :=
  ⟨idx, cols, List.replicate idx.length (List.replicate cols.length none)⟩

/-- `df.loc[r, c] = v` for a row label `r` and a column label `c`:
in-place update of the one cell at row label `r`, column label `c`. -/
def DataFrame.setCell (df : DataFrame) (r c : String) (v : ℚ) : DataFrame :=
  ⟨df.index, df.columns,
   List.modify (fun row => row.set (df.columns.indexOf c) (some v))
     (df.index.indexOf r) df.data⟩

/-- `df.loc[r, '1900':'2020'] = vs`: assignment of a whole row (the label
slice covers all four columns). -/
def DataFrame.setRow (df : DataFrame) (r : String) (vs : List ℚ) : DataFrame :=
  ⟨df.index, df.columns, df.data.set (df.index.indexOf r) (vs.map some)⟩

/-- The cell at row position i, column position j (`none` when unfilled
or out of range). -/
def DataFrame.cell (df : DataFrame) (i j : Nat) : Option ℚ :=
  (df.data.getD i []).getD j none

/-- Observable side effects of the measurement phase.  The measurement
loops of both scripts only ever `print`; file writes are representable in
the trace so that their absence is an expressible property. -/
inductive Effect where
  | consoleLine (text : String)
  | fileWrite (path : String)

/-- True for a console log line, false for a file write. -/
def Effect.isConsole : Effect → Bool
  | consoleLine _ => true
  | fileWrite _ => false

/-! ## The measurement loop of Leap_Benchmark_II.py (lines 47-51) -/

/-- The list comprehension `val = [round(min(timeit.repeat(lambda:
func(data))), 3) for data in input_data]` for one row, from column index
j onwards.  Each element requires `func data` not to raise, and is the
rounded minimum of the five batch totals; `c j r k` is the duration of
the k-th call of the r-th batch in column j. -/
def rowValsII (f : Int → Option Bool) (c : Nat → Nat → Nat → ℚ) :
    Nat → List Int → Except String (List ℚ)
  | _, [] => Except.ok []
  | j, data :: rest =>
    match f data with
    | none => Except.error "ValueError"
    | some _ =>
      match rowValsII f c (j + 1) rest with
      | Except.error e => Except.error e
      | Except.ok vs =>
        Except.ok
          (pyRound3 (listMin (timeitRepeat (c j) timeitRepeatCount timeitNumber)) :: vs)

/-- The `for func, title in zip(functions, row_headers)` loop: computes
the row's values, prints one line per row, and assigns the row slice;
`call i j r k` is the duration of the k-th call of the r-th batch for row
i, column j. -/
def benchIILoop (inputs : List Int) (call : Nat → Nat → Nat → Nat → ℚ) :
    Nat → List ((Int → Option Bool) × String) → DataFrame × List Effect →
    Except String (DataFrame × List Effect)
  | _, [], acc => Except.ok acc
  | i, (f, title) :: rest, (df, log) =>
    match rowValsII f (call i) 0 inputs with
    | Except.error e => Except.error e
    | Except.ok vals =>
      benchIILoop inputs call (i + 1) rest
        (df.setRow title vals,
         log ++ [Effect.consoleLine (title ++ " : " ++ toString vals)])

/-- The measurement phase of Leap_Benchmark_II.py: the empty DataFrame
followed by the timing loop over `zip(functions, row_headers)`;
parameterised by the `input_data` list the comprehension iterates over
and by the abstract call-duration function. -/
def runBenchmarkII (inputs : List Int) (call : Nat → Nat → Nat → Nat → ℚ) :
    Except String (DataFrame × List Effect) :=
  benchIILoop inputs call 0 (functions.zip row_headers)
    (DataFrame.empty row_headers col_headers, [])

/-! ## The measurement loop of Leap_benchmarking.py (lines 49-68) -/

/-- The four hard-coded (column label, year literal) pairs appearing in
the statements `leap_year(1900)` ... `leap_year(2020)` and the `year`
label variables next to them. -/
def yearCols : List (String × Int) :=
  [("1900", 1900), ("2000", 2000), ("2019", 2019), ("2020", 2020)]

/-- One descriptor's four blocks `val = timeit.timeit("leap_year(YEAR)",
setups[descriptor], number=loops) / loops; print(...); df.loc[descriptor,
year] = val`, iterated over the (label, year) pairs from column index j
onwards; `c j k` is the duration of the k-th of the `loops` calls in
column j. -/
def benchIRow (f : Int → Option Bool) (descriptor : String)
    (c : Nat → Nat → ℚ) :
    Nat → List (String × Int) → DataFrame × List Effect →
    Except String (DataFrame × List Effect)
  | _, [], acc => Except.ok acc
  | j, (label, y) :: rest, (df, log) =>
    match f y with
    | none => Except.error "ValueError"
    | some _ =>
      benchIRow f descriptor c (j + 1) rest
        (df.setCell descriptor label (batchTotal (c j) loops / (loops : ℚ)),
         log ++ [Effect.consoleLine (descriptor ++ " " ++ label ++ ": " ++
           toString (batchTotal (c j) loops / (loops : ℚ)))])

/-- The `for descriptor in row_headers` loop of Leap_benchmarking.py:
looks up the descriptor's set-up (a missing key would raise `KeyError`),
then runs its four timing blocks; `call i j k` is the duration of the
k-th call for row i, column j. -/
def benchILoop (cols : List (String × Int)) (call : Nat → Nat → Nat → ℚ) :
    Nat → List String → DataFrame × List Effect →
    Except String (DataFrame × List Effect)
  | _, [], acc => Except.ok acc
  | i, descriptor :: rest, acc =>
    match List.lookup descriptor setups with
    | none => Except.error "KeyError"
    | some f =>
      match benchIRow f descriptor (call i) 0 cols acc with
      | Except.error e => Except.error e
      | Except.ok acc2 => benchILoop cols call (i + 1) rest acc2

/-- The measurement phase of Leap_benchmarking.py, parameterised by the
(label, year) columns its blocks enumerate and by the abstract
call-duration function. -/
def runBenchmarkI (cols : List (String × Int)) (call : Nat → Nat → Nat → ℚ) :
    Except String (DataFrame × List Effect) :=
  benchILoop cols call 0 row_headers (DataFrame.empty row_headers col_headers, [])

/-! ## Observers of a run -/

/-- The final DataFrame of a Leap_Benchmark_II run (`none` when the run
aborted with an exception). -/
def tableII (inputs : List Int) (call : Nat → Nat → Nat → Nat → ℚ) :
    Option DataFrame :=
  match runBenchmarkII inputs call with
  | Except.ok r => some r.1
  | Except.error _ => none

/-- The console trace of a Leap_Benchmark_II run. -/
def logOfII (inputs : List Int) (call : Nat → Nat → Nat → Nat → ℚ) :
    Option (List Effect) :=
  match runBenchmarkII inputs call with
  | Except.ok r => some r.2
  | Except.error _ => none

/-- The cell recorded at (row i, column j) by a Leap_Benchmark_II run. -/
def cellRunII (inputs : List Int) (call : Nat → Nat → Nat → Nat → ℚ)
    (i j : Nat) : Option ℚ :=
  match runBenchmarkII inputs call with
  | Except.ok r => r.1.cell i j
  | Except.error _ => none

/-- The final DataFrame of a Leap_benchmarking run. -/
def tableI (cols : List (String × Int)) (call : Nat → Nat → Nat → ℚ) :
    Option DataFrame :=
  match runBenchmarkI cols call with
  | Except.ok r => some r.1
  | Except.error _ => none

/-- The console trace of a Leap_benchmarking run. -/
def logOfI (cols : List (String × Int)) (call : Nat → Nat → Nat → ℚ) :
    Option (List Effect) :=
  match runBenchmarkI cols call with
  | Except.ok r => some r.2
  | Except.error _ => none

/-- The cell recorded at (row i, column j) by a Leap_benchmarking run. -/
def cellRunI (cols : List (String × Int)) (call : Nat → Nat → Nat → ℚ)
    (i j : Nat) : Option ℚ :=
  match runBenchmarkI cols call with
  | Except.ok r => r.1.cell i j
  | Except.error _ => none

/-- Shape and ordering of a result table: row labels in order, column
labels in order, and the length of each data row. -/
def shapeOf : Option DataFrame → Option (List String × List String × List Nat) :=
  Option.map fun t => (t.index, t.columns, t.data.map List.length)

/-- Whether a run completed without an exception. -/
def exceptOk {α : Type} : Except String α → Bool
  | Except.ok _ => true
  | Except.error _ => false

/-! ## Concrete call-duration functions (used by witnesses) -/

/-- Every call takes 0 seconds. -/
def zeroCallII : Nat → Nat → Nat → Nat → ℚ := fun _ _ _ _ => 0

/-- Every call takes exactly 1 second. -/
def unitCallII : Nat → Nat → Nat → Nat → ℚ := fun _ _ _ _ => 1

/-- Every call takes 0 seconds. -/
def zeroCallI : Nat → Nat → Nat → ℚ := fun _ _ _ => 0

/-- Every call takes exactly 1 second. -/
def unitCallI : Nat → Nat → Nat → ℚ := fun _ _ _ => 1

/-! ## Lemmas about the four predicates -/

/-- The ternary predicate computes the same boolean as the if-statement
predicate on every integer. -/
theorem leap_ternary_eq (y : Int) : leap_ternary y = leap_if_statements y := by
  simp only [leap_ternary, leap_if_statements]
  by_cases h100 : y % 100 = 0
  · by_cases h400 : y % 400 = 0
    · have h4 : y % 4 = 0 := by omega
      simp [h100, h400, h4]
    · simp [h100, h400]
  · simp [h100]

/-- The calendar predicate is the if-statement predicate verbatim. -/
theorem leap_calendar_eq (y : Int) : leap_calendar y = leap_if_statements y := rfl

/-- February of year y has 29 days exactly in the years the datetime
module considers leap. -/
theorem days_in_month_feb (y : Int) :
    days_in_month y 2 = if datetime_is_leap y then 29 else 28 := by
  cases h : datetime_is_leap y <;> simp [days_in_month, h, DAYS_IN_MONTH]

/-- Inside the constructor's accepted range the datetime predicate returns
the same boolean as the if-statement predicate. -/
theorem leap_datetime_in (y : Int) (h1 : 1 ≤ y) (h2 : y ≤ 9999) :
    leap_datetime y = some (leap_if_statements y) := by
  have hd : leap_if_statements y = datetime_is_leap y := rfl
  cases hb : datetime_is_leap y <;>
    simp [leap_datetime, nextDay, days_in_month_feb, hd, hb, h1, h2]

/-- Outside the constructor's accepted range the datetime predicate
raises. -/
theorem leap_datetime_out (y : Int) (h : y < 1 ∨ 9999 < y) :
    leap_datetime y = none := by
  rcases h with h | h <;> simp [leap_datetime] <;> omega

/-! ## Claims about the predicates -/

/-- C1: each of the four candidate predicates (if-statements, ternary,
datetime-add, calendar-isleap), applied to the four years under test,
returns false for 1900, true for 2000, false for 2019 and true for 2020
(the datetime candidate returning `some` of that boolean). -/
theorem claim_C1_predicate_values_on_test_years :
    (leap_if_statements 1900 = false ∧ leap_ternary 1900 = false ∧
     leap_datetime 1900 = some false ∧ leap_calendar 1900 = false) ∧
    (leap_if_statements 2000 = true ∧ leap_ternary 2000 = true ∧
     leap_datetime 2000 = some true ∧ leap_calendar 2000 = true) ∧
    (leap_if_statements 2019 = false ∧ leap_ternary 2019 = false ∧
     leap_datetime 2019 = some false ∧ leap_calendar 2019 = false) ∧
    (leap_if_statements 2020 = true ∧ leap_ternary 2020 = true ∧
     leap_datetime 2020 = some true ∧ leap_calendar 2020 = true) := by
  decide

/-- C2 counterexample: at year 0 the four candidates do not all return
one boolean — `leap_datetime` raises (`none`) instead of returning a
boolean, while the other three return `true`. -/
theorem claim_C2_counterexample :
    ¬ ∃ b : Bool, leap_if_statements 0 = b ∧ leap_ternary 0 = b ∧
      leap_datetime 0 = some b ∧ leap_calendar 0 = b := by
  decide

/-- C2 (amended): for every integer year inside the datetime
constructor's range [1, 9999], all four candidate predicates return the
same boolean. -/
theorem claim_C2_agreement_on_datetime_range (year : Int)
    (h1 : 1 ≤ year) (h2 : year ≤ 9999) :
    ∃ b : Bool, leap_if_statements year = b ∧ leap_ternary year = b ∧
      leap_datetime year = some b ∧ leap_calendar year = b :=
  ⟨leap_if_statements year, rfl, leap_ternary_eq year,
   leap_datetime_in year h1 h2, leap_calendar_eq year⟩

/-- C2 witness: the amended claim applied at year 2000. -/
theorem claim_C2_agreement_witness :
    ∃ b : Bool, leap_if_statements 2000 = b ∧ leap_ternary 2000 = b ∧
      leap_datetime 2000 = some b ∧ leap_calendar 2000 = b :=
  claim_C2_agreement_on_datetime_range 2000 (by decide) (by decide)

/-- C9: `leap_datetime` raises (returns `none`) exactly for years outside
[1, 9999]; the other three candidates are total; and inside [1, 9999] all
four agree. -/
theorem claim_C9_datetime_range_and_agreement (year : Int) :
    ((leap_datetime year).isSome ↔ 1 ≤ year ∧ year ≤ 9999) ∧
    (1 ≤ year → year ≤ 9999 →
      leap_datetime year = some (leap_if_statements year) ∧
      leap_ternary year = leap_if_statements year ∧
      leap_calendar year = leap_if_statements year) ∧
    (year < 1 ∨ 9999 < year → leap_datetime year = none) := by
  refine ⟨?_, fun h1 h2 => ⟨leap_datetime_in year h1 h2,
    leap_ternary_eq year, leap_calendar_eq year⟩, leap_datetime_out year⟩
  constructor
  · intro hs
    by_contra hout
    rw [leap_datetime_out year (by omega)] at hs
    simp at hs
  · intro hin
    rw [leap_datetime_in year hin.1 hin.2]
    rfl

/-- C9 witness: at year 2000 `leap_datetime` returns a boolean agreeing
with `leap_if_statements`, and at year 0 it raises. -/
theorem claim_C9_witness :
    leap_datetime 2000 = some (leap_if_statements 2000) ∧
    leap_datetime 0 = none :=
  ⟨((claim_C9_datetime_range_and_agreement 2000).2.1 (by decide) (by decide)).1,
   (claim_C9_datetime_range_and_agreement 0).2.2 (by decide)⟩

/-- C10: on every integer year, the if-statement, ternary and calendar
predicates compute the same boolean, and that boolean is the Gregorian
rule of the spec (divisible by 4, except centuries not divisible by
400). -/
theorem claim_C10_total_predicates_match_gregorian_rule (year : Int) :
    leap_if_statements year = leap_ternary year ∧
    leap_if_statements year = leap_calendar year ∧
    (leap_if_statements year = true ↔ gregorianLeap year) := by
  refine ⟨(leap_ternary_eq year).symm, (leap_calendar_eq year).symm, ?_⟩
  simp only [leap_if_statements, gregorianLeap, Bool.and_eq_true,
    Bool.or_eq_true, beq_iff_eq, bne_iff_ne, ne_eq]
  omega

/-! ## Lemmas about the harness runs -/

set_option maxHeartbeats 1600000 in
/-- On the actual input years, a Leap_Benchmark_II run records at
(row i, column j) the 3-decimal rounding of the minimum of the five
batch totals of that cell's timing, whatever the call durations are. -/
theorem cellRunII_eq (call : Nat → Nat → Nat → Nat → ℚ) (i j : Nat)
    (hi : i < 4) (hj : j < 4) :
    cellRunII input_data call i j =
      some (pyRound3 (listMin
        (timeitRepeat (call i j) timeitRepeatCount timeitNumber))) := by
  interval_cases i <;> interval_cases j <;> rfl

set_option maxHeartbeats 1600000 in
/-- On the actual input years, a Leap_benchmarking run records at
(row i, column j) the batch total of that cell's `loops` calls divided by
`loops`, whatever the call durations are. -/
theorem cellRunI_eq (call : Nat → Nat → Nat → ℚ) (i j : Nat)
    (hi : i < 4) (hj : j < 4) :
    cellRunI yearCols call i j =
      some (batchTotal (call i j) loops / (loops : ℚ)) := by
  interval_cases i <;> interval_cases j <;> rfl

/-- A Leap_Benchmark_II run on the actual input years always completes
with a table of the fixed shape. -/
theorem shapeOfII_eq (call : Nat → Nat → Nat → Nat → ℚ) :
    shapeOf (tableII input_data call) =
      some (row_headers, col_headers, [4, 4, 4, 4]) := rfl

/-- A Leap_benchmarking run on the actual years always completes with a
table of the fixed shape. -/
theorem shapeOfI_eq (call : Nat → Nat → Nat → ℚ) :
    shapeOf (tableI yearCols call) =
      some (row_headers, col_headers, [4, 4, 4, 4]) := rfl

/-- A Leap_Benchmark_II run prints one console line per candidate row —
four lines in total — and nothing else. -/
theorem logOfII_eq (call : Nat → Nat → Nat → Nat → ℚ) :
    (logOfII input_data call).map List.length = some 4 ∧
    (logOfII input_data call).map (fun l => l.all Effect.isConsole) = some true :=
  ⟨rfl, rfl⟩

set_option maxHeartbeats 800000 in
/-- A Leap_benchmarking run prints one console line per measurement —
sixteen lines in total — and nothing else. -/
theorem logOfI_eq (call : Nat → Nat → Nat → ℚ) :
    (logOfI yearCols call).map List.length = some 16 ∧
    (logOfI yearCols call).map (fun l => l.all Effect.isConsole) = some true :=
  ⟨rfl, rfl⟩

/-- A row of Leap_Benchmark_II values only comes back `ok` when the
candidate raised on none of the inputs. -/
theorem rowValsII_ok {f : Int → Option Bool} {c : Nat → Nat → Nat → ℚ}
    {j : Nat} {inputs : List Int} {vs : List ℚ}
    (h : rowValsII f c j inputs = Except.ok vs) :
    ∀ y ∈ inputs, f y ≠ none := by
  induction inputs generalizing j vs with
  | nil => simp
  | cons a l ih =>
    simp only [rowValsII] at h
    cases hfa : f a with
    | none => rw [hfa] at h; simp at h
    | some b =>
      rw [hfa] at h
      cases hr : rowValsII f c (j + 1) l with
      | error e => rw [hr] at h; simp at h
      | ok vs2 =>
        intro y hy
        rcases List.mem_cons.mp hy with rfl | hmem
        · simp [hfa]
        · exact ih hr y hmem

/-- The Leap_Benchmark_II loop only comes back `ok` when no listed
candidate raised on any input. -/
theorem benchIILoop_ok {inputs : List Int} {call : Nat → Nat → Nat → Nat → ℚ}
    {pairs : List ((Int → Option Bool) × String)} {i : Nat}
    {acc : DataFrame × List Effect} {r : DataFrame × List Effect}
    (h : benchIILoop inputs call i pairs acc = Except.ok r) :
    ∀ p ∈ pairs, ∀ y ∈ inputs, p.1 y ≠ none := by
  induction pairs generalizing i acc with
  | nil => simp
  | cons q rest ih =>
    obtain ⟨f, title⟩ := q
    obtain ⟨df, log⟩ := acc
    simp only [benchIILoop] at h
    cases hr : rowValsII f (call i) 0 inputs with
    | error e => rw [hr] at h; simp at h
    | ok vals =>
      rw [hr] at h
      intro p hp y hy
      rcases List.mem_cons.mp hp with rfl | hmem
      · exact rowValsII_ok hr y hy
      · exact ih h p hmem y hy

/-- A row of Leap_benchmarking cells only comes back `ok` when the
candidate raised on none of the listed years. -/
theorem benchIRow_ok {f : Int → Option Bool} {descriptor : String}
    {c : Nat → Nat → ℚ} {j : Nat} {cols : List (String × Int)}
    {acc r : DataFrame × List Effect}
    (h : benchIRow f descriptor c j cols acc = Except.ok r) :
    ∀ p ∈ cols, f p.2 ≠ none := by
  induction cols generalizing j acc with
  | nil => simp
  | cons a l ih =>
    obtain ⟨label, y0⟩ := a
    obtain ⟨df, log⟩ := acc
    simp only [benchIRow] at h
    cases hfa : f y0 with
    | none => rw [hfa] at h; simp at h
    | some b =>
      rw [hfa] at h
      intro p hp
      rcases List.mem_cons.mp hp with rfl | hmem
      · simp [hfa]
      · exact ih h p hmem

/-- The Leap_benchmarking loop only comes back `ok` when no looked-up
candidate raised on any listed year. -/
theorem benchILoop_ok {cols : List (String × Int)} {call : Nat → Nat → Nat → ℚ}
    {ds : List String} {i : Nat} {acc r : DataFrame × List Effect}
    (h : benchILoop cols call i ds acc = Except.ok r) :
    ∀ d ∈ ds, ∀ f, List.lookup d setups = some f → ∀ p ∈ cols, f p.2 ≠ none := by
  induction ds generalizing i acc with
  | nil => simp
  | cons d0 rest ih =>
    cases hl : List.lookup d0 setups with
    | none => simp [benchILoop, hl] at h
    | some f0 =>
      simp only [benchILoop, hl] at h
      cases hr : benchIRow f0 d0 (call i) 0 cols acc with
      | error e => rw [hr] at h; simp at h
      | ok acc2 =>
        rw [hr] at h
        intro d hd f hf p hp
        rcases List.mem_cons.mp hd with rfl | hmem
        · rw [hl] at hf
          obtain rfl : f0 = f := Option.some.inj hf
          exact benchIRow_ok hr p hp
        · exact ih h d hmem f hf p hp

/-- Sum of per-call durations: a constant-duration call yields n times
that duration. -/
theorem batchTotal_const (q : ℚ) (n : Nat) :
    batchTotal (fun _ => q) n = (n : ℚ) * q := by
  simp [batchTotal, List.map_const', List.sum_replicate, nsmul_eq_mul]

/-- A batch total of non-negative call durations is non-negative. -/
theorem batchTotal_nonneg {c : Nat → ℚ} (hc : ∀ k, 0 ≤ c k) (n : Nat) :
    0 ≤ batchTotal c n := by
  refine List.sum_nonneg ?_
  intro x hx
  obtain ⟨k, _, rfl⟩ := List.mem_map.mp hx
  exact hc k

/-- The left fold of `min` stays inside the list it folds over. -/
theorem foldl_min_mem (xs : List ℚ) : ∀ x : ℚ, xs.foldl min x ∈ x :: xs := by
  induction xs with
  | nil => intro x; simp
  | cons y ys ih =>
    intro x
    simp only [List.foldl]
    rcases List.mem_cons.mp (ih (min x y)) with h2 | h2
    · rw [h2]
      rcases min_choice x y with h | h <;> rw [h] <;> simp
    · simp [h2]

/-- Python's `min` of a non-empty list returns one of its elements. -/
theorem listMin_mem : ∀ {l : List ℚ}, l ≠ [] → listMin l ∈ l
  | [], h => absurd rfl h
  | x :: xs, _ => foldl_min_mem xs x

/-- `timeit.repeat` returns one batch total per repetition. -/
theorem timeitRepeat_length (c : Nat → Nat → ℚ) (rep number : Nat) :
    (timeitRepeat c rep number).length = rep := by
  simp [timeitRepeat]

/-- All batch totals are non-negative when every call duration is. -/
theorem timeitRepeat_nonneg {c : Nat → Nat → ℚ} (hc : ∀ r k, 0 ≤ c r k)
    (rep number : Nat) : ∀ x ∈ timeitRepeat c rep number, 0 ≤ x := by
  intro x hx
  obtain ⟨r, _, rfl⟩ := List.mem_map.mp hx
  exact batchTotal_nonneg (hc r) number

/-- Rounding half to even never goes below the floor, hence preserves
non-negativity. -/
theorem rne_nonneg {q : ℚ} (h : 0 ≤ q) : 0 ≤ rne q := by
  have hf : (0 : Int) ≤ ⌊q⌋ := Int.floor_nonneg.mpr h
  unfold rne
  split_ifs <;> omega

/-- Python's `round(x, 3)` preserves non-negativity. -/
theorem pyRound3_nonneg {q : ℚ} (h : 0 ≤ q) : 0 ≤ pyRound3 q := by
  have h1 : (0 : Int) ≤ rne (q * 1000) := rne_nonneg (by positivity)
  unfold pyRound3
  have h2 : (0 : ℚ) ≤ (rne (q * 1000) : ℚ) := by exact_mod_cast h1
  positivity

/-- With every call lasting exactly one second, Leap_Benchmark_II records
1000000 seconds in its first cell: the minimum batch total, not a
single-call duration. -/
theorem unit_cell_II : cellRunII input_data unitCallII 0 0 = some 1000000 := by
  rw [cellRunII_eq unitCallII 0 0 (by decide) (by decide)]
  have h1 : timeitRepeat (unitCallII 0 0) timeitRepeatCount timeitNumber =
      List.replicate 5 (1000000 : ℚ) := by
    show (List.range 5).map (fun r => batchTotal (fun _ => (1 : ℚ)) 1000000) =
      List.replicate 5 (1000000 : ℚ)
    simp [batchTotal_const, List.map_const']
  rw [h1]
  have h2 : listMin (List.replicate 5 (1000000 : ℚ)) = 1000000 := by
    simp [List.replicate, listMin]
  rw [h2]
  have h3 : pyRound3 1000000 = 1000000 := by
    norm_num [pyRound3, rne]
  rw [h3]

/-- With every call lasting exactly one second, Leap_benchmarking records
an average of exactly one second in its first cell. -/
theorem unit_cell_I : cellRunI yearCols unitCallI 0 0 = some 1 := by
  rw [cellRunI_eq unitCallI 0 0 (by decide) (by decide)]
  have h1 : batchTotal (unitCallI 0 0) loops = (1000000 : ℚ) := by
    show batchTotal (fun _ => (1 : ℚ)) loops = (1000000 : ℚ)
    rw [batchTotal_const]
    norm_num [loops]
  rw [h1]
  norm_num [loops]

/-! ## Claims about the harness -/

/-- C3 (amended): for every (candidate, input) pair, the value recorded by
Leap_Benchmark_II is the minimum of the five batch totals (each the total
duration of 1,000,000 consecutive calls) rounded to three decimal places,
and the value recorded by Leap_benchmarking is the total duration of
`loops` calls divided by `loops`. -/
theorem claim_C3_recorded_aggregations
    (callII : Nat → Nat → Nat → Nat → ℚ) (callI : Nat → Nat → Nat → ℚ)
    (i j : Nat) (hi : i < 4) (hj : j < 4) :
    cellRunII input_data callII i j =
      some (pyRound3 (listMin
        (timeitRepeat (callII i j) timeitRepeatCount timeitNumber))) ∧
    cellRunI yearCols callI i j =
      some (batchTotal (callI i j) loops / (loops : ℚ)) :=
  ⟨cellRunII_eq callII i j hi hj, cellRunI_eq callI i j hi hj⟩

/-- C3 witness: the amended claim at the zero-duration call functions and
cell (0, 0). -/
theorem claim_C3_witness :
    cellRunII input_data zeroCallII 0 0 =
      some (pyRound3 (listMin
        (timeitRepeat (zeroCallII 0 0) timeitRepeatCount timeitNumber))) ∧
    cellRunI yearCols zeroCallI 0 0 =
      some (batchTotal (zeroCallI 0 0) loops / (loops : ℚ)) :=
  claim_C3_recorded_aggregations zeroCallII zeroCallI 0 0 (by decide) (by decide)

/-- C3 counterexample: with every call lasting exactly one second,
Leap_Benchmark_II records 1000000 in cell (0, 0) — the minimum batch
total of a million calls — although the minimum single-call duration is 1
and the total time divided by the call count is also 1, so the recorded
value is neither of the two aggregations the claim allows. -/
theorem claim_C3_counterexample :
    cellRunII input_data unitCallII 0 0 = some 1000000 ∧
    unitCallII 0 0 0 0 = 1 ∧
    batchTotal (unitCallII 0 0 0) timeitNumber / (timeitNumber : ℚ) = 1 ∧
    (1000000 : ℚ) ≠ 1 := by
  refine ⟨unit_cell_II, rfl, ?_, by norm_num⟩
  show batchTotal (fun _ => (1 : ℚ)) timeitNumber / (timeitNumber : ℚ) = 1
  rw [batchTotal_const]
  norm_num [timeitNumber]

set_option maxHeartbeats 800000 in
/-- C4: a run over the actual input years (on which no candidate raises)
completes, its table has the fixed four-row four-column shape, and every
(candidate, input) cell holds a recorded measurement. -/
theorem claim_C4_all_cells_populated
    (callII : Nat → Nat → Nat → Nat → ℚ) (callI : Nat → Nat → Nat → ℚ)
    (i j : Nat) (hi : i < 4) (hj : j < 4) :
    (tableII input_data callII).isSome = true ∧
    (cellRunII input_data callII i j).isSome = true ∧
    (tableI yearCols callI).isSome = true ∧
    (cellRunI yearCols callI i j).isSome = true := by
  refine ⟨rfl, ?_, rfl, ?_⟩
  · rw [cellRunII_eq callII i j hi hj]; rfl
  · rw [cellRunI_eq callI i j hi hj]; rfl

set_option maxHeartbeats 800000 in
/-- C4 witness: the populated table at the zero-duration call functions
and cell (3, 3). -/
theorem claim_C4_witness :
    (tableII input_data zeroCallII).isSome = true ∧
    (cellRunII input_data zeroCallII 3 3).isSome = true ∧
    (tableI yearCols zeroCallI).isSome = true ∧
    (cellRunI yearCols zeroCallI 3 3).isSome = true :=
  claim_C4_all_cells_populated zeroCallII zeroCallI 3 3 (by decide) (by decide)

/-- C5: if a listed candidate raises on a listed input, the exception
propagates out of the measurement loop and the run aborts with no result
table at all (the model returns `Except.error`, so no partial results
survive). -/
theorem claim_C5_exception_aborts_run :
    (∀ (inputs : List Int) (call : Nat → Nat → Nat → Nat → ℚ)
      (f : Int → Option Bool) (title : String) (y : Int),
      (f, title) ∈ functions.zip row_headers → y ∈ inputs → f y = none →
      exceptOk (runBenchmarkII inputs call) = false) ∧
    (∀ (cols : List (String × Int)) (call : Nat → Nat → Nat → ℚ)
      (descriptor : String) (f : Int → Option Bool) (label : String) (y : Int),
      descriptor ∈ row_headers → List.lookup descriptor setups = some f →
      (label, y) ∈ cols → f y = none →
      exceptOk (runBenchmarkI cols call) = false) := by
  constructor
  · intro inputs call f title y hmem hy hnone
    cases hrun : runBenchmarkII inputs call with
    | error e => rfl
    | ok r =>
      exfalso
      unfold runBenchmarkII at hrun
      exact benchIILoop_ok hrun (f, title) hmem y hy hnone
  · intro cols call descriptor f label y hd hf hmem hnone
    cases hrun : runBenchmarkI cols call with
    | error e => rfl
    | ok r =>
      exfalso
      unfold runBenchmarkI at hrun
      exact benchILoop_ok hrun descriptor hd f hf (label, y) hmem hnone

/-- C5 witness: with year 0 as the input, the datetime candidate raises
`ValueError` and both runs abort. -/
theorem claim_C5_witness :
    exceptOk (runBenchmarkII [0] zeroCallII) = false ∧
    exceptOk (runBenchmarkI [("0", 0)] zeroCallI) = false :=
  ⟨claim_C5_exception_aborts_run.1 [0] zeroCallII leap_datetime "datetime-add" 0
      (by simp [functions, row_headers]) (by simp) rfl,
   claim_C5_exception_aborts_run.2 [("0", 0)] zeroCallI "datetime-add"
      leap_datetime "0" 0 (by decide) rfl (by simp) rfl⟩

/-- C6: when every individual call duration is non-negative (which the
monotonic wall clock guarantees), every value recorded in either result
table is a non-negative rational, hence finite. -/
theorem claim_C6_durations_nonneg
    (callII : Nat → Nat → Nat → Nat → ℚ) (callI : Nat → Nat → Nat → ℚ)
    (hII : ∀ i j r k, 0 ≤ callII i j r k) (hI : ∀ i j k, 0 ≤ callI i j k)
    (i j : Nat) (hi : i < 4) (hj : j < 4) :
    (∀ q, cellRunII input_data callII i j = some q → 0 ≤ q) ∧
    (∀ q, cellRunI yearCols callI i j = some q → 0 ≤ q) := by
  constructor
  · intro q hq
    rw [cellRunII_eq callII i j hi hj] at hq
    obtain rfl := Option.some.inj hq
    have hne : timeitRepeat (callII i j) timeitRepeatCount timeitNumber ≠ [] := by
      intro hnil
      have hlen := timeitRepeat_length (callII i j) timeitRepeatCount timeitNumber
      rw [hnil] at hlen
      simp [timeitRepeatCount] at hlen
    exact pyRound3_nonneg
      (timeitRepeat_nonneg (hII i j) timeitRepeatCount timeitNumber _
        (listMin_mem hne))
  · intro q hq
    rw [cellRunI_eq callI i j hi hj] at hq
    obtain rfl := Option.some.inj hq
    exact div_nonneg (batchTotal_nonneg (hI i j) loops) (Nat.cast_nonneg loops)

/-- C6 witness: non-negativity of the values recorded under the
one-second call functions (1000000 and 1 in the respective first
cells). -/
theorem claim_C6_witness : (0 : ℚ) ≤ 1000000 ∧ (0 : ℚ) ≤ 1 :=
  ⟨(claim_C6_durations_nonneg unitCallII unitCallI
      (fun _ _ _ _ => zero_le_one) (fun _ _ _ => zero_le_one) 0 0
      (by decide) (by decide)).1 1000000 unit_cell_II,
   (claim_C6_durations_nonneg unitCallII unitCallI
      (fun _ _ _ _ => zero_le_one) (fun _ _ _ => zero_le_one) 0 0
      (by decide) (by decide)).2 1 unit_cell_I⟩

/-- C7: two runs of either harness with the same candidates, inputs and
repetition counts — but arbitrary, possibly different, call durations —
produce result tables of identical shape with identical candidate-row
and input-column ordering. -/
theorem claim_C7_shape_deterministic
    (c1 c2 : Nat → Nat → Nat → Nat → ℚ) (d1 d2 : Nat → Nat → Nat → ℚ) :
    shapeOf (tableII input_data c1) = shapeOf (tableII input_data c2) ∧
    shapeOf (tableI yearCols d1) = shapeOf (tableI yearCols d2) ∧
    shapeOf (tableII input_data c1) =
      some (row_headers, col_headers, [4, 4, 4, 4]) ∧
    shapeOf (tableI yearCols d1) =
      some (row_headers, col_headers, [4, 4, 4, 4]) :=
  ⟨(shapeOfII_eq c1).trans (shapeOfII_eq c2).symm,
   (shapeOfI_eq d1).trans (shapeOfI_eq d2).symm,
   shapeOfII_eq c1, shapeOfI_eq d1⟩

/-- C8 (amended): during the measurement phase the only effects besides
filling the result table are console log lines — Leap_benchmarking
prints one per measurement (16 lines), Leap_Benchmark_II one per
candidate row (4 lines, each listing the row's four values) — and no
file writes or other I/O occur in this phase. -/
theorem claim_C8_console_only
    (callII : Nat → Nat → Nat → Nat → ℚ) (callI : Nat → Nat → Nat → ℚ) :
    (logOfII input_data callII).map List.length = some row_headers.length ∧
    (logOfI yearCols callI).map List.length =
      some (row_headers.length * col_headers.length) ∧
    (logOfII input_data callII).map (fun l => l.all Effect.isConsole) =
      some true ∧
    (logOfI yearCols callI).map (fun l => l.all Effect.isConsole) =
      some true :=
  ⟨(logOfII_eq callII).1, (logOfI_eq callI).1,
   (logOfII_eq callII).2, (logOfI_eq callI).2⟩

/-- C8 counterexample: Leap_Benchmark_II prints 4 console lines while
taking 16 measurements, so the harness does not log one line for each
measurement as it is taken. -/
theorem claim_C8_counterexample :
    (logOfII input_data zeroCallII).map List.length = some 4 ∧
    row_headers.length * input_data.length = 16 ∧
    (4 : Nat) ≠ 16 :=
  ⟨(logOfII_eq zeroCallII).1, rfl, by decide⟩
